import Mathlib

/-!
Verification of the sandbagging-detection core of the Handicap Evaluation Tool.

The Python source is embedded shallowly: floats become `ℚ` (every comparison
threshold in the source is a decimal literal, represented exactly), counts
become `ℕ`, Python `Optional` becomes `Option`, and f-string formatting is
reproduced by explicit decimal formatters.  External library functions that
the repository merely calls (`stats.norm.cdf` from scipy, `statistics.stdev`
from the Python standard library) are passed as function parameters, so every
theorem quantifies over their behaviour.
-/

set_option linter.unusedVariables false

namespace HandicapEval

/-- Python `round` applied to a rational: round half to even. -/
def roundHalfEven (q : ℚ) : ℤ :=
  let n : ℤ := ⌊q⌋
  let frac : ℚ := q - n
  if frac < 1/2 then n
  else if 1/2 < frac then n + 1
  else if n % 2 = 0 then n else n + 1

/-- Left-pad a string with zeros to length `k`. -/
def padZeros (k : ℕ) (s : String) : String :=
  if s.length < k then String.mk (List.replicate (k - s.length) '0') ++ s
  else s

/-- Python fixed-point formatting of a rational with a given
number of fractional digits, the counterpart of an f-string
format spec such as `.1f` applied to our rational model of a float. -/
def pyFixed (prec : ℕ) (q : ℚ) : String :=
  let scaled : ℤ := roundHalfEven (q * (10:ℚ)^prec)
  let sign : String := if q < 0 then "-" else ""
  let m : ℕ := scaled.natAbs
  if prec = 0 then sign ++ Nat.repr m
  else sign ++ Nat.repr (m / 10^prec) ++ "." ++ padZeros prec (Nat.repr (m % 10^prec))

/-- Python sign-forcing fixed-point formatting, the counterpart of a
format spec such as `+.1f`. -/
def pySignedFixed (prec : ℕ) (q : ℚ) : String :=
  if q < 0 then pyFixed prec q else "+" ++ pyFixed prec q

/-- Group the reversed digit list of a number into blocks of three,
least-significant digits first. -/
def group3 : List Char → List (List Char)
  | [] => []
  | [a] => [[a]]
  | [a, b] => [[a, b]]
  | a :: b :: c :: rest => [a, b, c] :: group3 rest

/-- Python thousands-separator formatting of a natural number,
the counterpart of the format spec used in `detect_all_scores_better_than_expected`. -/
def commaSep (n : ℕ) : String :=
  String.mk (List.intercalate [','] (((group3 (Nat.repr n).data.reverse).map List.reverse).reverse))

/-- Python `int()` truncation of a rational toward zero. -/
def pyInt (q : ℚ) : ℤ :=
  if 0 ≤ q then ⌊q⌋ else -⌊-q⌋

/-- Python `statistics.mean` on a list of rationals (the source only calls it
on non-empty lists). -/
def mean (xs : List ℚ) : ℚ := xs.sum / xs.length

/-- Mirrors the pydantic model `SandbaggerRedFlag` of app/models/requests.py:
flag type, severity (one of LOW, MEDIUM, HIGH, CRITICAL), description,
evidence, and an optional probability note. -/
structure SandbaggerRedFlag where
  flag_type : String
  severity : String
  description : String
  evidence : String
  probability_note : Option String
deriving DecidableEq, Repr

/-- Mirrors `calculate_sandbagging_risk_score` of app/services/sandbagging.py.
The Python accumulates `risk_score += ...` across four factor blocks plus a
critical-flag bonus, caps the total at 100, and classifies it; each
`if/elif` chain becomes a nested conditional.  The parameter `rvol` is the
argument named volatility ratio in the source. -/
def calculate_sandbagging_risk_score
    (tournament_avg_vs_expected tournament_percentile rvol : ℚ)
    (num_red_flags critical_flags : ℕ) : ℚ × String :=
  let factor1 : ℚ :=
    if tournament_avg_vs_expected < -2 then 40
    else if tournament_avg_vs_expected < -1 then 30
    else if tournament_avg_vs_expected < -1/2 then 20
    else if tournament_avg_vs_expected < 0 then 10
    else 0
  let factor2 : ℚ :=
    if tournament_percentile < 5 then 25
    else if tournament_percentile < 15 then 20
    else if tournament_percentile < 25 then 15
    else if tournament_percentile < 40 then 10
    else 0
  let factor3 : ℚ :=
    if rvol < 1/2 then 20
    else if rvol < 7/10 then 15
    else if rvol < 9/10 then 10
    else 0
  let factor4 : ℚ := min ((num_red_flags : ℚ) * 3) 15
  let critical_bonus : ℚ := (critical_flags : ℚ) * 10
  let risk_score : ℚ := min (factor1 + factor2 + factor3 + factor4 + critical_bonus) 100
  let risk_level : String :=
    if 75 ≤ risk_score then "SEVERE"
    else if 50 ≤ risk_score then "HIGH"
    else if 25 ≤ risk_score then "MODERATE"
    else "LOW"
  (risk_score, risk_level)

/-- Mirrors `detect_tournament_excellence_pattern` of app/services/sandbagging.py.
The call `stats.norm.cdf` into scipy (an external library, used only inside the
probability note string) is passed in as the parameter `normCdf`. -/
def detect_tournament_excellence_pattern (normCdf : ℚ → ℚ)
    (tournament_avg_vs_expected tournament_percentile : ℚ)
    (num_tournaments : ℕ) : Option SandbaggerRedFlag :=
  if -1/2 ≤ tournament_avg_vs_expected then none
  else
    let z_score : ℚ := tournament_avg_vs_expected
    let prob_this_good : ℚ := normCdf z_score
    if tournament_avg_vs_expected ≤ -5/2 ∧ tournament_percentile < 10 then
      some
        { flag_type := "TOURNAMENT_EXCELLENCE"
          severity := "CRITICAL"
          description := "Exceptionally consistent tournament performance far exceeds handicap"
          evidence := "Averages " ++ pyFixed 1 |tournament_avg_vs_expected| ++
            " strokes better than expected in " ++ Nat.repr num_tournaments ++
            " tournaments (top " ++ pyFixed 1 tournament_percentile ++ "%)"
          probability_note := some ("Probability of this consistent excellence: " ++
            pyFixed 2 (prob_this_good * 100) ++ "% - Highly unusual") }
    else if tournament_avg_vs_expected ≤ -3/2 ∧ tournament_percentile < 20 then
      some
        { flag_type := "TOURNAMENT_EXCELLENCE"
          severity := "HIGH"
          description := "Strong tournament performance consistently exceeds handicap"
          evidence := "Averages " ++ pyFixed 1 |tournament_avg_vs_expected| ++
            " strokes better than expected in " ++ Nat.repr num_tournaments ++
            " tournaments (top " ++ pyFixed 1 tournament_percentile ++ "%)"
          probability_note := some ("Probability of this performance: " ++
            pyFixed 2 (prob_this_good * 100) ++ "%") }
    else if tournament_avg_vs_expected ≤ -1 ∧ tournament_percentile < 30 then
      some
        { flag_type := "TOURNAMENT_EXCELLENCE"
          severity := "MEDIUM"
          description := "Tournament performance notably better than expected"
          evidence := "Averages " ++ pyFixed 1 |tournament_avg_vs_expected| ++
            " strokes better than expected in " ++ Nat.repr num_tournaments ++
            " tournaments"
          probability_note := none }
    else none

/-- Mirrors `detect_low_volatility_pattern` of app/services/sandbagging.py.
The parameter `rvol` is the argument named volatility ratio in the source. -/
def detect_low_volatility_pattern
    (actual_volatility expected_volatility rvol : ℚ) : Option SandbaggerRedFlag :=
  if 7/10 ≤ rvol then none
  else if rvol < 1/2 then
    some
      { flag_type := "LOW_VOLATILITY"
        severity := "HIGH"
        description := "Unusually consistent scoring pattern"
        evidence := "Score volatility (" ++ pyFixed 1 actual_volatility ++ ") is " ++
          pyFixed 0 ((1 - rvol) * 100) ++ "% lower than expected (" ++
          pyFixed 1 expected_volatility ++ ")"
        probability_note := some "Consistent excellence suggests possible handicap inflation" }
  else if rvol < 7/10 then
    some
      { flag_type := "LOW_VOLATILITY"
        severity := "MEDIUM"
        description := "Lower than expected scoring variance"
        evidence := "Score volatility (" ++ pyFixed 1 actual_volatility ++ ") is " ++
          pyFixed 0 ((1 - rvol) * 100) ++ "% lower than expected (" ++
          pyFixed 1 expected_volatility ++ ")"
        probability_note := none }
  else none

/-- Mirrors `detect_improbable_performance` of app/services/sandbagging.py. -/
def detect_improbable_performance
    (joint_probability : ℚ) (num_rounds : ℕ) : Option SandbaggerRedFlag :=
  if 1/100 < joint_probability then none
  else if joint_probability < 1/10000 then
    some
      { flag_type := "IMPROBABLE_CONSISTENCY"
        severity := "CRITICAL"
        description := "Statistically improbable consistent excellence"
        evidence := "Combined probability of all " ++ Nat.repr num_rounds ++
          " tournament performances: " ++ pyFixed 4 (joint_probability * 100) ++ "%"
        probability_note := some
          "This level of consistent excellence is extremely rare - less than 1 in 10,000 golfers" }
  else if joint_probability < 1/1000 then
    some
      { flag_type := "IMPROBABLE_CONSISTENCY"
        severity := "HIGH"
        description := "Highly improbable performance consistency"
        evidence := "Combined probability of all " ++ Nat.repr num_rounds ++
          " tournament performances: " ++ pyFixed 3 (joint_probability * 100) ++ "%"
        probability_note := some "This level of excellence is very rare" }
  else if joint_probability < 1/100 then
    some
      { flag_type := "IMPROBABLE_CONSISTENCY"
        severity := "MEDIUM"
        description := "Unlikely performance consistency"
        evidence := "Combined probability of all " ++ Nat.repr num_rounds ++
          " tournament performances: " ++ pyFixed 2 (joint_probability * 100) ++ "%"
        probability_note := none }
  else none

/-- Mirrors `detect_casual_vs_tournament_disparity` of app/services/sandbagging.py. -/
def detect_casual_vs_tournament_disparity
    (casual_avg tournament_avg casual_expected tournament_expected : ℚ)
    (num_casual num_tournaments : ℕ) : Option SandbaggerRedFlag :=
  let casual_vs_expected : ℚ := casual_avg - casual_expected
  let tournament_vs_expected : ℚ := tournament_avg - tournament_expected
  let disparity : ℚ := casual_vs_expected - tournament_vs_expected
  if disparity < 2 then none
  else if 5 ≤ disparity then
    some
      { flag_type := "CASUAL_TOURNAMENT_DISPARITY"
        severity := "CRITICAL"
        description := "Major performance disparity between casual and tournament play"
        evidence := "Casual rounds avg " ++ pySignedFixed 1 casual_vs_expected ++
          " vs expected, tournaments " ++ pySignedFixed 1 tournament_vs_expected ++
          " vs expected (difference: " ++ pyFixed 1 disparity ++ " strokes)"
        probability_note := some ("Based on " ++ Nat.repr num_casual ++
          " casual rounds and " ++ Nat.repr num_tournaments ++ " tournament rounds") }
  else if 7/2 ≤ disparity then
    some
      { flag_type := "CASUAL_TOURNAMENT_DISPARITY"
        severity := "HIGH"
        description := "Significant performance difference between casual and competitive rounds"
        evidence := "Casual rounds avg " ++ pySignedFixed 1 casual_vs_expected ++
          " vs expected, tournaments " ++ pySignedFixed 1 tournament_vs_expected ++
          " vs expected (difference: " ++ pyFixed 1 disparity ++ " strokes)"
        probability_note := some ("Based on " ++ Nat.repr num_casual ++
          " casual rounds and " ++ Nat.repr num_tournaments ++ " tournament rounds") }
  else if 2 ≤ disparity then
    some
      { flag_type := "CASUAL_TOURNAMENT_DISPARITY"
        severity := "MEDIUM"
        description := "Notable performance variance between casual and tournament play"
        evidence := "Performance " ++ pyFixed 1 disparity ++
          " strokes better in tournaments than casual rounds"
        probability_note := none }
  else none

/-- Mirrors `detect_all_scores_better_than_expected` of app/services/sandbagging.py. -/
def detect_all_scores_better_than_expected
    (scores_vs_expected : List ℚ) : Option SandbaggerRedFlag :=
  if scores_vs_expected = [] then none
  else
    let all_better : Bool := scores_vs_expected.all (fun score => decide (score < 0))
    if all_better = false then none
    else
      let num_rounds : ℕ := scores_vs_expected.length
      let avg_better : ℚ := mean scores_vs_expected
      let prob : ℚ := (1/2 : ℚ) ^ num_rounds
      if 5 ≤ num_rounds then
        some
          { flag_type := "PERFECT_TOURNAMENT_RECORD"
            severity := "HIGH"
            description := "Every single tournament round (" ++ Nat.repr num_rounds ++
              ") exceeded expectations"
            evidence := "All " ++ Nat.repr num_rounds ++
              " rounds beat expected score by average of " ++ pyFixed 1 |avg_better| ++ " strokes"
            probability_note := some ("Probability of this: " ++ pyFixed 3 (prob * 100) ++
              "% (1 in " ++ commaSep (pyInt (1 / prob)).natAbs ++ ")") }
      else if 3 ≤ num_rounds then
        some
          { flag_type := "PERFECT_TOURNAMENT_RECORD"
            severity := "MEDIUM"
            description := "All " ++ Nat.repr num_rounds ++
              " tournament rounds exceeded expectations"
            evidence := "Perfect record of beating expected score"
            probability_note := none }
      else none

/-- Mirrors `generate_sandbagging_summary` of app/services/sandbagging.py. -/
def generate_sandbagging_summary
    (risk_score : ℚ) (risk_level : String)
    (tournament_avg_vs_expected : ℚ) (num_red_flags : ℕ) : String :=
  if risk_level = "SEVERE" then
    "⚠️ SEVERE SANDBAGGING RISK: Multiple critical indicators suggest this handicap " ++
    "may be significantly inflated. Tournament performance averaging " ++
    pyFixed 1 |tournament_avg_vs_expected| ++ " strokes better than handicap predicts " ++
    "is highly suspicious."
  else if risk_level = "HIGH" then
    "🚩 HIGH SANDBAGGING RISK: Several concerning patterns detected. " ++
    "Golfer consistently outperforms their handicap in tournaments " ++
    "(avg " ++ pyFixed 1 |tournament_avg_vs_expected| ++ " strokes better than expected). " ++
    "Further investigation recommended."
  else if risk_level = "MODERATE" then
    "⚡ MODERATE RISK: Some indicators suggest potential sandbagging. " ++
    "Tournament performance is " ++ pyFixed 1 |tournament_avg_vs_expected| ++ " strokes " ++
    "better than expected. Monitor for continued patterns."
  else
    "✅ LOW RISK: Performance appears consistent with stated handicap. " ++
    "No significant sandbagging indicators detected."

/-- Mirrors `generate_recommendation` of app/services/sandbagging.py. -/
def generate_recommendation
    (risk_level : String) (num_critical_flags : ℕ) : String :=
  if risk_level = "SEVERE" then
    "RECOMMENDED ACTION: Handicap committee review strongly recommended. " ++
    "Consider requiring handicap verification or adjustment. " ++
    "This golfer should be monitored closely in future competitions."
  else if risk_level = "HIGH" then
    "RECOMMENDED ACTION: Investigation warranted. Request additional score history " ++
    "and consider informal discussion with golfer. Monitor performance in upcoming events."
  else if risk_level = "MODERATE" then
    "RECOMMENDED ACTION: Continue monitoring. If pattern persists over next 3-5 rounds, " ++
    "consider deeper investigation. Golfer may simply be improving or having a hot streak."
  else
    "RECOMMENDED ACTION: No action needed. Performance is consistent with handicap. " ++
    "Continue normal monitoring procedures."

/-- Mirrors the statement
`tournament_volatility = statistics.stdev(tournament_scores) if len(tournament_scores) > 1 else 0.0`
of `analyze_sandbagging` in app/routes/golf.py.  The call `statistics.stdev` into the
Python standard library (an external collaborator) is passed in as the
parameter `stdev`; the guard keeps it from ever being invoked on fewer than
two samples. -/
def tournament_volatility (stdev : List ℚ → ℚ) (tournament_scores : List ℚ) : ℚ :=
  if 1 < tournament_scores.length then stdev tournament_scores else 0

/-- Mirrors the statement
`volatility_ratio = tournament_volatility / expected_volatility if expected_volatility > 0 else 1.0`
of `analyze_sandbagging` in app/routes/golf.py (named volatility ratio there). -/
def volatility_quot (tv expected_volatility : ℚ) : ℚ :=
  if 0 < expected_volatility then tv / expected_volatility else 1

/-- Mirrors `num_critical_flags = sum(1 for flag in red_flags if flag.severity == "CRITICAL")`
of `analyze_sandbagging` in app/routes/golf.py. -/
def num_critical_flags (red_flags : List SandbaggerRedFlag) : ℕ :=
  (red_flags.filter (fun flag => flag.severity == "CRITICAL")).length

/-- Mirrors the pydantic field constraint on `num_simulations` of
`TeamBestBallSingleRoundRequest` in app/models/requests.py:
`Field(default=10000, ge=1000, le=1000000)`.  Pydantic accepts a request iff
every field constraint holds, so this is the acceptance predicate of the
boundary for that field. -/
def single_round_num_simulations_ok (n : ℤ) : Prop := 1000 ≤ n ∧ n ≤ 1000000

/-- Mirrors the pydantic field constraint on `num_simulations` of
`TeamBestBallMultiRoundRequest` in app/models/requests.py:
`Field(default=10000, ge=1000, le=1000000)`. -/
def multi_round_num_simulations_ok (n : ℤ) : Prop := 1000 ≤ n ∧ n ≤ 1000000

/-- Modelled from the spec: the Monte Carlo team best-ball simulator
(`simulate_team_bestball_round_scores` of app/services/team_probability.py) is
not under src/.  Spec section 4.4 says that, given a simulation count S, it
draws exactly S pairs of independent samples and aggregates them, so the
length of its simulation loop is the count itself. -/
def simulator_trial_count (num_simulations : ℕ) : ℕ := num_simulations

/-- Checks that an optional red flag, when present, carries severity MEDIUM,
HIGH or CRITICAL (never LOW). -/
def severity_ok : Option SandbaggerRedFlag → Bool
  | none => true
  | some f => f.severity == "MEDIUM" || f.severity == "HIGH" || f.severity == "CRITICAL"

/-- Concrete critical flag used to instantiate hypotheses about flag lists. -/
def exampleCriticalFlag : SandbaggerRedFlag :=
  { flag_type := "TOURNAMENT_EXCELLENCE", severity := "CRITICAL"
    description := "", evidence := "", probability_note := none }

/-- Concrete non-critical flag used to instantiate hypotheses about flag lists. -/
def exampleMediumFlag : SandbaggerRedFlag :=
  { flag_type := "LOW_VOLATILITY", severity := "MEDIUM"
    description := "", evidence := "", probability_note := none }

/-- Spec-side decomposition: the tournament-performance tier of the risk score
(factor 1 of `calculate_sandbagging_risk_score`, worth up to 40 points). -/
def tournament_performance_points (avg : ℚ) : ℚ :=
  if avg < -2 then 40
  else if avg < -1 then 30
  else if avg < -1/2 then 20
  else if avg < 0 then 10
  else 0

/-- Spec-side decomposition: the percentile tier of the risk score
(factor 2 of `calculate_sandbagging_risk_score`, worth up to 25 points). -/
def percentile_points (pct : ℚ) : ℚ :=
  if pct < 5 then 25
  else if pct < 15 then 20
  else if pct < 25 then 15
  else if pct < 40 then 10
  else 0

/-- Spec-side decomposition: the volatility tier of the risk score
(factor 3 of `calculate_sandbagging_risk_score`, worth up to 20 points). -/
def volatility_points (rvol : ℚ) : ℚ :=
  if rvol < 1/2 then 20
  else if rvol < 7/10 then 15
  else if rvol < 9/10 then 10
  else 0

theorem risk_score_eq (a p r : ℚ) (nf cf : ℕ) :
    (calculate_sandbagging_risk_score a p r nf cf).1 =
      min (tournament_performance_points a + percentile_points p + volatility_points r +
        min ((nf : ℚ) * 3) 15 + (cf : ℚ) * 10) 100 := rfl

theorem risk_level_eq (a p r : ℚ) (nf cf : ℕ) :
    (calculate_sandbagging_risk_score a p r nf cf).2 =
      if 75 ≤ (calculate_sandbagging_risk_score a p r nf cf).1 then "SEVERE"
      else if 50 ≤ (calculate_sandbagging_risk_score a p r nf cf).1 then "HIGH"
      else if 25 ≤ (calculate_sandbagging_risk_score a p r nf cf).1 then "MODERATE"
      else "LOW" := rfl

theorem level_iff (s : ℚ) :
    ((if 75 ≤ s then "SEVERE" else if 50 ≤ s then "HIGH"
        else if 25 ≤ s then "MODERATE" else "LOW") = "SEVERE" ↔ 75 ≤ s)
  ∧ ((if 75 ≤ s then "SEVERE" else if 50 ≤ s then "HIGH"
        else if 25 ≤ s then "MODERATE" else "LOW") = "HIGH" ↔ 50 ≤ s ∧ s < 75)
  ∧ ((if 75 ≤ s then "SEVERE" else if 50 ≤ s then "HIGH"
        else if 25 ≤ s then "MODERATE" else "LOW") = "MODERATE" ↔ 25 ≤ s ∧ s < 50)
  ∧ ((if 75 ≤ s then "SEVERE" else if 50 ≤ s then "HIGH"
        else if 25 ≤ s then "MODERATE" else "LOW") = "LOW" ↔ s < 25) := by
  split_ifs with h1 h2 h3 <;> refine ⟨?_, ?_, ?_, ?_⟩ <;> simp <;>
    first
      | linarith
      | (constructor <;> linarith)
      | (intro h; linarith)

theorem tournament_performance_points_bounds (a : ℚ) :
    0 ≤ tournament_performance_points a ∧ tournament_performance_points a ≤ 40 := by
  unfold tournament_performance_points
  split_ifs <;> norm_num

theorem percentile_points_bounds (p : ℚ) :
    0 ≤ percentile_points p ∧ percentile_points p ≤ 25 := by
  unfold percentile_points
  split_ifs <;> norm_num

theorem volatility_points_bounds (r : ℚ) :
    0 ≤ volatility_points r ∧ volatility_points r ≤ 20 := by
  unfold volatility_points
  split_ifs <;> norm_num

/-- C3: for every input, `calculate_sandbagging_risk_score` returns a score in
[0, 100] computed additively (tournament tier up to 40, percentile tier up to
25, volatility tier up to 20, plus min of 3 times the flag count and 15, plus
10 points per critical flag, capped at 100), and the returned risk level is
SEVERE iff the score is at least 75, HIGH iff it lies in [50, 75), MODERATE
iff it lies in [25, 50), and LOW otherwise. -/
theorem C3_risk_score_additive_capped_levels (a p r : ℚ) (nf cf : ℕ) :
    (calculate_sandbagging_risk_score a p r nf cf).1 =
      min (tournament_performance_points a + percentile_points p + volatility_points r +
        min ((nf : ℚ) * 3) 15 + (cf : ℚ) * 10) 100
    ∧ 0 ≤ (calculate_sandbagging_risk_score a p r nf cf).1
    ∧ (calculate_sandbagging_risk_score a p r nf cf).1 ≤ 100
    ∧ 0 ≤ tournament_performance_points a ∧ tournament_performance_points a ≤ 40
    ∧ 0 ≤ percentile_points p ∧ percentile_points p ≤ 25
    ∧ 0 ≤ volatility_points r ∧ volatility_points r ≤ 20
    ∧ 0 ≤ min ((nf : ℚ) * 3) 15 ∧ min ((nf : ℚ) * 3) 15 ≤ 15
    ∧ ((calculate_sandbagging_risk_score a p r nf cf).2 = "SEVERE" ↔
        75 ≤ (calculate_sandbagging_risk_score a p r nf cf).1)
    ∧ ((calculate_sandbagging_risk_score a p r nf cf).2 = "HIGH" ↔
        50 ≤ (calculate_sandbagging_risk_score a p r nf cf).1 ∧
        (calculate_sandbagging_risk_score a p r nf cf).1 < 75)
    ∧ ((calculate_sandbagging_risk_score a p r nf cf).2 = "MODERATE" ↔
        25 ≤ (calculate_sandbagging_risk_score a p r nf cf).1 ∧
        (calculate_sandbagging_risk_score a p r nf cf).1 < 50)
    ∧ ((calculate_sandbagging_risk_score a p r nf cf).2 = "LOW" ↔
        (calculate_sandbagging_risk_score a p r nf cf).1 < 25) := by
  obtain ⟨ht0, ht1⟩ := tournament_performance_points_bounds a
  obtain ⟨hp0, hp1⟩ := percentile_points_bounds p
  obtain ⟨hv0, hv1⟩ := volatility_points_bounds r
  have hm0 : (0:ℚ) ≤ min ((nf : ℚ) * 3) 15 := le_min (by positivity) (by norm_num)
  have hm1 : min ((nf : ℚ) * 3) 15 ≤ 15 := min_le_right _ _
  have hc0 : (0:ℚ) ≤ (cf : ℚ) * 10 := by positivity
  have hs := risk_score_eq a p r nf cf
  have hs0 : 0 ≤ (calculate_sandbagging_risk_score a p r nf cf).1 := by
    rw [hs]; exact le_min (by linarith) (by norm_num)
  have hs1 : (calculate_sandbagging_risk_score a p r nf cf).1 ≤ 100 := by
    rw [hs]; exact min_le_right _ _
  obtain ⟨l1, l2, l3, l4⟩ := level_iff (calculate_sandbagging_risk_score a p r nf cf).1
  exact ⟨hs, hs0, hs1, ht0, ht1, hp0, hp1, hv0, hv1, hm0, hm1,
    by rw [risk_level_eq a p r nf cf]; exact l1,
    by rw [risk_level_eq a p r nf cf]; exact l2,
    by rw [risk_level_eq a p r nf cf]; exact l3,
    by rw [risk_level_eq a p r nf cf]; exact l4⟩

/-- C1: with a tournament average of minus 3.0 strokes versus expected and an
average percentile of 4, the tournament-excellence detector returns a
CRITICAL flag, and whenever the red-flag list contains at least two flags one
of which is CRITICAL (as the pipeline guarantees, since the flag returned by the detector is
appended to the list), the risk score is at least 75 with level SEVERE,
regardless of the volatility ratio. -/
theorem C1_tournament_excellence_critical_and_severe :
    (∀ (normCdf : ℚ → ℚ) (n : ℕ),
      (detect_tournament_excellence_pattern normCdf (-3) 4 n).map
        (fun f => (f.flag_type, f.severity)) = some ("TOURNAMENT_EXCELLENCE", "CRITICAL"))
    ∧ (∀ (flags : List SandbaggerRedFlag) (r : ℚ),
        2 ≤ flags.length → (∃ f ∈ flags, f.severity = "CRITICAL") →
        75 ≤ (calculate_sandbagging_risk_score (-3) 4 r flags.length (num_critical_flags flags)).1
        ∧ (calculate_sandbagging_risk_score (-3) 4 r flags.length
            (num_critical_flags flags)).2 = "SEVERE") := by
  constructor
  · intro normCdf n
    have hg : ¬ ((-1:ℚ)/2 ≤ -3) := by norm_num
    have hc : ((-3:ℚ) ≤ -5/2 ∧ (4:ℚ) < 10) := by norm_num
    simp [detect_tournament_excellence_pattern, hg, hc]
  · intro flags r hlen hex
    have hcf : 1 ≤ num_critical_flags flags := by
      obtain ⟨f, hf, hsev⟩ := hex
      have hmem : f ∈ flags.filter (fun g => g.severity == "CRITICAL") :=
        List.mem_filter.mpr ⟨hf, by simp [hsev]⟩
      have hpos := List.length_pos.mpr (List.ne_nil_of_mem hmem)
      exact hpos
    have ha : tournament_performance_points (-3) = 40 := by
      norm_num [tournament_performance_points]
    have hp : percentile_points 4 = 25 := by
      norm_num [percentile_points]
    have hv := (volatility_points_bounds r).1
    have hnf : (2:ℚ) ≤ (flags.length : ℚ) := by exact_mod_cast hlen
    have hm : (6:ℚ) ≤ min ((flags.length : ℚ) * 3) 15 :=
      le_min (by linarith) (by norm_num)
    have hcq : (1:ℚ) ≤ (num_critical_flags flags : ℚ) := by exact_mod_cast hcf
    have hscore : 75 ≤ (calculate_sandbagging_risk_score (-3) 4 r flags.length
        (num_critical_flags flags)).1 := by
      rw [risk_score_eq, ha, hp]
      exact le_min (by nlinarith) (by norm_num)
    refine ⟨hscore, ?_⟩
    rw [risk_level_eq]
    rw [if_pos hscore]

/-- Witness for C1 at a concrete input: two flags, one critical, volatility
ratio 1. -/
theorem C1_witness :
    (detect_tournament_excellence_pattern (fun _ => 0) (-3) 4 5).map
      (fun f => (f.flag_type, f.severity)) = some ("TOURNAMENT_EXCELLENCE", "CRITICAL")
    ∧ (75 ≤ (calculate_sandbagging_risk_score (-3) 4 1
        ([exampleCriticalFlag, exampleMediumFlag].length)
        (num_critical_flags [exampleCriticalFlag, exampleMediumFlag])).1
      ∧ (calculate_sandbagging_risk_score (-3) 4 1
          ([exampleCriticalFlag, exampleMediumFlag].length)
          (num_critical_flags [exampleCriticalFlag, exampleMediumFlag])).2 = "SEVERE") :=
  ⟨C1_tournament_excellence_critical_and_severe.1 (fun _ => 0) 5,
   C1_tournament_excellence_critical_and_severe.2 [exampleCriticalFlag, exampleMediumFlag] 1
     (by simp)
     ⟨exampleCriticalFlag, by simp, rfl⟩⟩

theorem roundHalfEven_intCast (z : ℤ) : roundHalfEven (z : ℚ) = z := by
  simp [roundHalfEven, Int.floor_intCast, sub_self]

theorem pyFixed_one_of_int (q : ℚ) (z : ℤ) (hz : q * 10 ^ 1 = (z : ℚ)) (hq : ¬ q < 0) :
    pyFixed 1 q =
      Nat.repr (z.natAbs / 10 ^ 1) ++ "." ++ padZeros 1 (Nat.repr (z.natAbs % 10 ^ 1)) := by
  simp only [pyFixed]
  rw [hz, roundHalfEven_intCast]
  simp [hq]

theorem pyFixed_one_three : pyFixed 1 (3 : ℚ) = "3.0" := by
  rw [pyFixed_one_of_int 3 30 (by norm_num) (by norm_num)]
  decide

theorem pyFixed_one_four : pyFixed 1 (4 : ℚ) = "4.0" := by
  rw [pyFixed_one_of_int 4 40 (by norm_num) (by norm_num)]
  decide

/-- C2 counterexample: with a tournament average of minus 0.6 strokes versus
expected (which is at most minus 0.5) and percentile 50, the
tournament-excellence detector returns no flag, refuting the claim that it
triggers whenever the average is at most minus 0.5. -/
theorem C2_counterexample :
    ((-3 : ℚ)/5 ≤ -1/2)
    ∧ detect_tournament_excellence_pattern (fun _ => 0) (-3/5) 50 5 = none := by
  constructor
  · norm_num
  · have h0 : ¬ ((-1:ℚ)/2 ≤ -3/5) := by norm_num
    have h1 : ¬ ((-3:ℚ)/5 ≤ -5/2 ∧ (50:ℚ) < 10) := by norm_num
    have h2 : ¬ ((-3:ℚ)/5 ≤ -3/2 ∧ (50:ℚ) < 20) := by norm_num
    have h3 : ¬ ((-3:ℚ)/5 ≤ -1 ∧ (50:ℚ) < 30) := by norm_num
    simp [detect_tournament_excellence_pattern, h0, h1, h2, h3]

/-- C2 amended: the tournament-excellence detector returns a flag exactly when
one of its three severity tiers applies, CRITICAL when the average is at most
minus 2.5 and the percentile is below 10, otherwise HIGH when the average is
at most minus 1.5 and the percentile is below 20, otherwise MEDIUM when the
average is at most minus 1.0 and the percentile is below 30; an average at
most minus 0.5 alone does not suffice. -/
theorem C2_excellence_characterization (normCdf : ℚ → ℚ) (a p : ℚ) (n : ℕ) :
    (detect_tournament_excellence_pattern normCdf a p n).map (fun f => f.severity) =
      if a ≤ -5/2 ∧ p < 10 then some "CRITICAL"
      else if a ≤ -3/2 ∧ p < 20 then some "HIGH"
      else if a ≤ -1 ∧ p < 30 then some "MEDIUM"
      else none := by
  unfold detect_tournament_excellence_pattern
  split_ifs with h1 h2 h3 h4 <;> simp_all <;> linarith

/-- C4 counterexample: two calls to `generate_sandbagging_summary` that carry
the same risk level SEVERE but different tournament averages produce
different summary strings, refuting the claim that the summary depends only
on the risk level. -/
theorem C4_counterexample :
    generate_sandbagging_summary 80 "SEVERE" (-3) 2 ≠
      generate_sandbagging_summary 80 "SEVERE" (-4) 2 := by
  have e3 : |(-3 : ℚ)| = 3 := by norm_num
  have e4 : |(-4 : ℚ)| = 4 := by norm_num
  simp only [generate_sandbagging_summary, e3, e4, pyFixed_one_three, pyFixed_one_four,
    if_pos rfl]
  decide

/-- C4 amended: `generate_recommendation` depends only on the risk level, and
`generate_sandbagging_summary` depends only on the risk level together with
the tournament average versus expected (it ignores the risk score and the
flag count). -/
theorem C4_templates_depend_on_level_and_average (lvl : String) :
    (∀ (s1 s2 a : ℚ) (n1 n2 : ℕ),
      generate_sandbagging_summary s1 lvl a n1 = generate_sandbagging_summary s2 lvl a n2)
    ∧ (∀ c1 c2 : ℕ, generate_recommendation lvl c1 = generate_recommendation lvl c2) :=
  ⟨fun _ _ _ _ _ => rfl, fun _ _ => rfl⟩

/-- C5: the perfect-record detector returns a flag iff the list is non-empty,
every round beat its expected score, and there are at least 3 rounds; the
severity is HIGH exactly for 5 or more rounds and MEDIUM exactly for 3 or 4. -/
theorem C5_perfect_record_characterization (xs : List ℚ) :
    (detect_all_scores_better_than_expected xs).map (fun f => f.severity) =
      if xs ≠ [] ∧ (∀ x ∈ xs, x < 0) ∧ 3 ≤ xs.length then
        some (if 5 ≤ xs.length then "HIGH" else "MEDIUM")
      else none := by
  rcases eq_or_ne xs [] with rfl | hne
  · simp [detect_all_scores_better_than_expected]
  · by_cases hall : ∀ x ∈ xs, x < 0
    · have hb : xs.all (fun s => decide (s < 0)) = true := by
        simp only [List.all_eq_true, decide_eq_true_eq]
        exact hall
      simp only [detect_all_scores_better_than_expected, hb]
      split_ifs <;> simp_all <;> omega
    · have hb : xs.all (fun s => decide (s < 0)) = false := by
        simp only [List.all_eq_false, decide_eq_true_eq]
        push_neg at hall
        obtain ⟨x, hx, hge⟩ := hall
        exact ⟨x, hx, not_lt.mpr hge⟩
      simp only [detect_all_scores_better_than_expected, hb]
      simp [hne, hall]

/-- C6: the casual-versus-tournament disparity detector computes
disparity = (casualAvg - casualExpected) - (tournamentAvg - tournamentExpected)
and returns no flag when disparity is below 2, a MEDIUM flag in [2, 3.5), a
HIGH flag in [3.5, 5), and a CRITICAL flag at 5 or above. -/
theorem C6_disparity_characterization (ca ta ce te : ℚ) (nc nt : ℕ) :
    (detect_casual_vs_tournament_disparity ca ta ce te nc nt).map (fun f => f.severity) =
      if (ca - ce) - (ta - te) < 2 then none
      else if 5 ≤ (ca - ce) - (ta - te) then some "CRITICAL"
      else if 7/2 ≤ (ca - ce) - (ta - te) then some "HIGH"
      else some "MEDIUM" := by
  simp only [detect_casual_vs_tournament_disparity]
  split_ifs <;> simp_all

/-- C7: invoked with exactly one tournament round, the volatility computation
of `analyze_sandbagging` reports exactly 0 without consulting the sample
standard deviation at all (the theorem quantifies over every possible
behaviour of `statistics.stdev`), so no error can be raised: the guarded
branch is total on single-round histories. -/
theorem C7_single_round_volatility_zero (stdev : List ℚ → ℚ) (s : ℚ) :
    tournament_volatility stdev [s] = 0 := by
  unfold tournament_volatility
  simp

/-- C8: the request boundary accepts a Monte Carlo simulation count iff it
lies within 1000 to 1000000 inclusive, for both team best-ball request
models, and for every accepted count the simulator loop length equals that
count, hence is strictly bounded by 1000000. -/
theorem C8_num_simulations_bounds :
    (∀ n : ℤ, (single_round_num_simulations_ok n ↔ 1000 ≤ n ∧ n ≤ 1000000)
      ∧ (multi_round_num_simulations_ok n ↔ 1000 ≤ n ∧ n ≤ 1000000))
    ∧ (∀ n : ℕ, single_round_num_simulations_ok (n : ℤ) →
        simulator_trial_count n = n ∧ 1000 ≤ simulator_trial_count n ∧
        simulator_trial_count n ≤ 1000000) := by
  refine ⟨fun n => ⟨Iff.rfl, Iff.rfl⟩, fun n h => ?_⟩
  obtain ⟨h1, h2⟩ := h
  refine ⟨rfl, ?_, ?_⟩ <;> [exact_mod_cast h1; exact_mod_cast h2]

/-- Witness for C8 at the concrete count 10000. -/
theorem C8_witness :
    simulator_trial_count 10000 = 10000 ∧ 1000 ≤ simulator_trial_count 10000 ∧
      simulator_trial_count 10000 ≤ 1000000 :=
  C8_num_simulations_bounds.2 10000 (by constructor <;> norm_num)

/-- C9: every red flag returned by any of the five detectors has severity
MEDIUM, HIGH or CRITICAL; no detector ever returns a LOW-severity flag. -/
theorem C9_no_low_severity_flags :
    (∀ (normCdf : ℚ → ℚ) (a p : ℚ) (n : ℕ),
      severity_ok (detect_tournament_excellence_pattern normCdf a p n) = true)
    ∧ (∀ av ev r : ℚ, severity_ok (detect_low_volatility_pattern av ev r) = true)
    ∧ (∀ (jp : ℚ) (n : ℕ), severity_ok (detect_improbable_performance jp n) = true)
    ∧ (∀ (ca ta ce te : ℚ) (nc nt : ℕ),
        severity_ok (detect_casual_vs_tournament_disparity ca ta ce te nc nt) = true)
    ∧ (∀ xs : List ℚ, severity_ok (detect_all_scores_better_than_expected xs) = true) := by
  refine ⟨?_, ?_, ?_, ?_, ?_⟩ <;> intros <;>
    first
      | (simp only [detect_tournament_excellence_pattern]; split_ifs <;> rfl)
      | (simp only [detect_low_volatility_pattern]; split_ifs <;> rfl)
      | (simp only [detect_improbable_performance]; split_ifs <;> rfl)
      | (simp only [detect_casual_vs_tournament_disparity]; split_ifs <;> rfl)
      | (simp only [detect_all_scores_better_than_expected]; split_ifs <;> rfl)

/-- C10: for a single-round tournament history and any strictly positive
expected volatility, the computed volatility ratio is 0 (fallback volatility
0 divided by the positive expected volatility), so the low-volatility
detector emits a HIGH-severity LOW_VOLATILITY flag. -/
theorem C10_single_round_low_volatility_flag (stdev : List ℚ → ℚ) (score ev : ℚ)
    (h : 0 < ev) :
    volatility_quot (tournament_volatility stdev [score]) ev = 0
    ∧ (detect_low_volatility_pattern (tournament_volatility stdev [score]) ev
        (volatility_quot (tournament_volatility stdev [score]) ev)).map
          (fun f => (f.flag_type, f.severity)) = some ("LOW_VOLATILITY", "HIGH") := by
  have htv : tournament_volatility stdev [score] = 0 := by
    unfold tournament_volatility; simp
  have hq : volatility_quot (tournament_volatility stdev [score]) ev = 0 := by
    rw [htv]; unfold volatility_quot; rw [if_pos h]; simp
  have hq0 : volatility_quot 0 ev = 0 := by
    unfold volatility_quot; rw [if_pos h]; simp
  refine ⟨hq, ?_⟩
  rw [htv, hq0]
  have hc1 : ¬ ((7:ℚ)/10 ≤ 0) := by norm_num
  have hc2 : ((0:ℚ) < 1/2) := by norm_num
  simp [detect_low_volatility_pattern, hc1, hc2]

/-- Witness for C10 at a concrete input: expected volatility 3, a single
round of score 90, an arbitrary stdev stub. -/
theorem C10_witness :
    volatility_quot (tournament_volatility (fun _ => 0) [90]) 3 = 0
    ∧ (detect_low_volatility_pattern (tournament_volatility (fun _ => 0) [90]) 3
        (volatility_quot (tournament_volatility (fun _ => 0) [90]) 3)).map
          (fun f => (f.flag_type, f.severity)) = some ("LOW_VOLATILITY", "HIGH") :=
  C10_single_round_low_volatility_flag (fun _ => 0) 90 3 (by norm_num)

end HandicapEval
